import Mathlib

/-!
Shallow embedding of the flight-aggregation subsystem
(src/multiAPI.js and the flights-service module) together with proofs
about its specified behaviour.

Modelling conventions:
* JavaScript numbers that the program only ever produces as exact decimal
  fractions are modelled as rationals.
* Fallible operations (network calls, SOAP faults) are modelled as
  explicit Except values handed to the functions that consume them; a
  function that catches every exception is total and returns a plain value.
* Math.random() and Date library output are modelled as oracle inputs
  (explicit parameters) since they are environment effects, never computed
  by the program logic itself.
* JavaScript strings are modelled as Lean String values; case mapping is
  character-wise over ASCII plus the accented characters that occur in the
  program's lookup tables.
-/

/-! ### JavaScript string and value primitives -/

/-- Character-wise lower-casing as performed by toLowerCase on the
character set used by the program (ASCII plus accented vowels from the
city lookup tables). -/
def jsToLowerChar (c : Char) : Char :=
  if 'A' ≤ c ∧ c ≤ 'Z' then Char.ofNat (c.toNat + 32)
  else if c = 'Ã' then 'ã' else if c = 'Á' then 'á' else if c = 'Â' then 'â'
  else if c = 'É' then 'é' else if c = 'Ê' then 'ê' else if c = 'Í' then 'í'
  else if c = 'Ó' then 'ó' else if c = 'Ô' then 'ô' else if c = 'Õ' then 'õ'
  else if c = 'Ú' then 'ú' else if c = 'Ç' then 'ç' else c

/-- Character-wise upper-casing as performed by toUpperCase on the same
character set. -/
def jsToUpperChar (c : Char) : Char :=
  if 'a' ≤ c ∧ c ≤ 'z' then Char.ofNat (c.toNat - 32)
  else if c = 'ã' then 'Ã' else if c = 'á' then 'Á' else if c = 'â' then 'Â'
  else if c = 'é' then 'É' else if c = 'ê' then 'Ê' else if c = 'í' then 'Í'
  else if c = 'ó' then 'Ó' else if c = 'ô' then 'Ô' else if c = 'õ' then 'Õ'
  else if c = 'ú' then 'Ú' else if c = 'ç' then 'Ç' else c

def jsIsSpace (c : Char) : Bool :=
  c = ' ' || c = '\t' || c = '\n' || c = '\r'

/-- JavaScript String.prototype.trim. -/
def jsTrim (s : String) : String :=
  ⟨((s.data.dropWhile jsIsSpace).reverse.dropWhile jsIsSpace).reverse⟩

/-- JavaScript String.prototype.toLowerCase (character-wise model). -/
def jsToLower (s : String) : String := ⟨s.data.map jsToLowerChar⟩

/-- JavaScript String.prototype.toUpperCase (character-wise model). -/
def jsToUpper (s : String) : String := ⟨s.data.map jsToUpperChar⟩

/-- JavaScript s.substring(0, n). -/
def jsTake (s : String) (n : Nat) : String := ⟨s.data.take n⟩

def isAsciiUpper (c : Char) : Bool := 'A' ≤ c && c ≤ 'Z'

def isAsciiLetter (c : Char) : Bool :=
  ('A' ≤ c && c ≤ 'Z') || ('a' ≤ c && c ≤ 'z')

/-- The test of the anchored pattern of three upper-case letters used by
both getCityCode implementations. -/
def isThreeUpperAlpha (s : String) : Bool :=
  s.data.length = 3 && s.data.all isAsciiUpper

/-- JavaScript logical-or applied to an optional string field and a string
default: empty strings are falsy. -/
def jsOrStr (v : Option String) (d : String) : String :=
  match v with
  | some s => if s = "" then d else s
  | none => d

/-- JavaScript field-or-null for optional string fields: a falsy (empty)
string collapses to null. -/
def jsOrNullStr (v : Option String) : Option String :=
  match v with
  | some s => if s = "" then none else some s
  | none => none

theorem length_jsTrim_le (s : String) : (jsTrim s).length ≤ s.length := by
  have h1 : (s.data.dropWhile jsIsSpace).length ≤ s.data.length :=
    (List.dropWhile_sublist _).length_le
  have h2 : ((s.data.dropWhile jsIsSpace).reverse.dropWhile jsIsSpace).length ≤
      (s.data.dropWhile jsIsSpace).reverse.length :=
    (List.dropWhile_sublist _).length_le
  show (((s.data.dropWhile jsIsSpace).reverse.dropWhile jsIsSpace).reverse).length ≤
      s.data.length
  simp only [List.length_reverse] at h2 ⊢
  omega

theorem length_jsToUpper (s : String) : (jsToUpper s).length = s.length := by
  show (s.data.map jsToUpperChar).length = s.data.length
  simp

theorem length_jsToLower (s : String) : (jsToLower s).length = s.length := by
  show (s.data.map jsToLowerChar).length = s.data.length
  simp

theorem length_jsTake (s : String) (n : Nat) :
    (jsTake s n).length = min n s.length := by
  show (s.data.take n).length = min n s.data.length
  simp

/-! ### JSON-like value model for provider payloads -/

/-- Dynamic value as received from the SOAP/JSON providers.  Numbers are
modelled as rationals. -/
inductive Value where
  | null : Value
  | bool : Bool → Value
  | num : ℚ → Value
  | str : String → Value
  | arr : List Value → Value
  | obj : List (String × Value) → Value

/-- JavaScript truthiness. -/
def jsTruthy : Value → Bool
  | .null => false
  | .bool b => b
  | .num q => q != 0
  | .str s => s != ""
  | .arr _ => true
  | .obj _ => true

/-- Own-property access: object lookup by key; any non-object yields
undefined (modelled as none).  Callers guard against null receivers. -/
def getProp (v : Value) (k : String) : Option Value :=
  match v with
  | .obj fields => fields.lookup k
  | _ => none

/-- Truthiness of a property access. -/
def truthyProp (v : Value) (k : String) : Bool :=
  match getProp v k with
  | some x => jsTruthy x
  | none => false

/-- The value of a JavaScript or-chain over several property accesses:
first truthy property value, if any (all-falsy chains end in a falsy value
that every caller then rejects, so none is an adequate model). -/
def firstTruthyProp (v : Value) : List String → Option Value
  | [] => none
  | k :: ks =>
    match getProp v k with
    | some x => if jsTruthy x then some x else firstTruthyProp v ks
    | none => firstTruthyProp v ks

/-! ### Canonical offer data model (normalizeFlight output shape) -/

/-- One flown leg inside an itinerary, as built by the adapters. -/
structure Segmento where
  origem : Option String := none
  destino : Option String := none
  partida : Option String := none
  chegada : Option String := none
  duracao : Option String := none
  companhia : Option String := none
  numeroVoo : Option String := none
deriving DecidableEq

/-- The detalhes object: outbound and optional return segment lists.  A
missing ida list models the bare object default used by normalizeFlight. -/
structure Detalhes where
  ida : Option (List Segmento) := none
  volta : Option (List Segmento) := none
deriving DecidableEq

/-- Canonical offer record.  fonte and confiabilidade are optional because
the mock generator produces records without them, while normalizeFlight
always stamps both. -/
structure Voo where
  id : String
  preco : ℚ
  moeda : String
  companhia : String
  origem : String
  destino : String
  dataIda : String
  dataVolta : Option String
  duracaoIda : String
  duracaoVolta : Option String
  escalasIda : Int
  escalasVolta : Option Int
  detalhes : Detalhes
  linkReserva : String
  fonte : Option String
  confiabilidade : Option ℚ
deriving DecidableEq

/-- Pre-normalization record handed to normalizeFlight: every field may be
absent (undefined).  preco holds the numeric value after parseFloat; a
missing or NaN price is none. -/
structure FlightInput where
  id : Option String := none
  preco : Option ℚ := none
  moeda : Option String := none
  companhia : Option String := none
  origem : Option String := none
  destino : Option String := none
  dataIda : Option String := none
  dataVolta : Option String := none
  duracaoIda : Option String := none
  duracaoVolta : Option String := none
  escalasIda : Option Int := none
  escalasVolta : Option Int := none
  detalhes : Option Detalhes := none
  linkReserva : Option String := none
deriving DecidableEq

structure ErroRec where
  source : String
  error : String
deriving DecidableEq

structure Fontes where
  travellink : Nat
  amadeus : Nat
  aviationstack : Nat
deriving DecidableEq

structure Estatisticas where
  total : Nat
  fontes : Fontes
  erros : List ErroRec
deriving DecidableEq

structure MultiResult where
  voos : List Voo
  estatisticas : Estatisticas
deriving DecidableEq

/-- Enabled flags of the three providers (API_CONFIG).  In the shipped
configuration travellink is the literal true and the other two depend on
environment credentials; all three are parameters here so that every
configuration the code can reach is covered. -/
structure Config where
  travellinkEnabled : Bool
  amadeusEnabled : Bool
  aviationstackEnabled : Bool
deriving DecidableEq

namespace MultiAPI

/-- The static city-name table of multiAPI.js getCityCode. -/
def cityMap : List (String × String) :=
  [("são paulo", "SAO"), ("sao paulo", "SAO"),
   ("rio de janeiro", "RIO"), ("rio", "RIO"),
   ("brasília", "BSB"), ("brasilia", "BSB"),
   ("salvador", "SSA"), ("fortaleza", "FOR"),
   ("belo horizonte", "CNF"), ("manaus", "MAO"),
   ("curitiba", "CWB"), ("porto alegre", "POA"),
   ("recife", "REC"), ("belém", "BEL"), ("belem", "BEL"),
   ("goiânia", "GYN"), ("goiania", "GYN"),
   ("vitória", "VIX"), ("vitoria", "VIX"),
   ("florianópolis", "FLN"), ("florianopolis", "FLN"),
   ("campinas", "VCP"), ("guarulhos", "GRU"),
   ("congonhas", "CGH"), ("santos dumont", "SDU")]

/-- multiAPI.js getCityCode: anchored three-letter test on the trimmed
upper-cased input, then table lookup on the lower-cased trimmed input,
then the first three characters upper-cased. -/
def getCityCode (city : String) : String :=
  if isThreeUpperAlpha (jsToUpper (jsTrim city)) then jsToUpper (jsTrim city)
  else
    match cityMap.lookup (jsTrim (jsToLower city)) with
    | some code => code
    | none => jsToUpper (jsTake city 3)

end MultiAPI

namespace FlightsService

/-- The static city-name table of the flights-service getCityCode. -/
def cityMap : List (String × String) :=
  [("são paulo", "SAO"), ("sao paulo", "SAO"),
   ("rio de janeiro", "RIO"), ("rio", "RIO"),
   ("brasília", "BSB"), ("brasilia", "BSB"),
   ("salvador", "SSA"), ("fortaleza", "FOR"),
   ("belo horizonte", "CNF"), ("manaus", "MAO"),
   ("curitiba", "CWB"), ("porto alegre", "POA"),
   ("recife", "REC"), ("belém", "BEL"), ("belem", "BEL"),
   ("goiânia", "GYN"), ("goiania", "GYN"),
   ("vitória", "VIX"), ("vitoria", "VIX"),
   ("florianópolis", "FLN"), ("florianopolis", "FLN"),
   ("campinas", "VCP"), ("guarulhos", "GRU"),
   ("congonhas", "CGH"), ("santos dumont", "SDU"),
   ("roma", "FCO"), ("rome", "FCO"),
   ("paris", "CDG"),
   ("londres", "LHR"), ("london", "LHR"),
   ("nova york", "JFK"), ("new york", "JFK"),
   ("miami", "MIA"), ("orlando", "MCO"),
   ("lisboa", "LIS"), ("lisbon", "LIS"),
   ("madrid", "MAD"), ("barcelona", "BCN"),
   ("amsterdam", "AMS"), ("frankfurt", "FRA"),
   ("munique", "MUC"), ("munich", "MUC"),
   ("zurich", "ZRH"),
   ("viena", "VIE"), ("vienna", "VIE"),
   ("atenas", "ATH"), ("athens", "ATH"),
   ("dubai", "DXB"), ("doha", "DOH"),
   ("singapura", "SIN"), ("singapore", "SIN"),
   ("tokyo", "NRT"), ("hong kong", "HKG"),
   ("sydney", "SYD"), ("melbourne", "MEL"),
   ("buenos aires", "EZE"), ("santiago", "SCL"),
   ("lima", "LIM"),
   ("bogotá", "BOG"), ("bogota", "BOG"),
   ("cidade do méxico", "MEX"), ("mexico city", "MEX")]

def isWordChar (c : Char) : Bool :=
  isAsciiLetter c || ('0' ≤ c && c ≤ '9') || c = '_'

/-- Word boundary to the left: start of string or a non-word character. -/
def prevBoundary : Option Char → Bool
  | none => true
  | some p => !isWordChar p

/-- Word boundary to the right: end of string or a non-word character. -/
def restBoundary : List Char → Bool
  | [] => true
  | d :: _ => !isWordChar d

/-- First match of the word-bounded three-letter pattern with the
case-insensitive flag: scans left to right for three consecutive ASCII
letters delimited by word boundaries; prev is the character just before
the current position. -/
def findIata (prev : Option Char) : List Char → Option (List Char)
  | a :: b :: c :: rest =>
    if prevBoundary prev && isAsciiLetter a && isAsciiLetter b &&
       isAsciiLetter c && restBoundary rest then
      some [a, b, c]
    else
      findIata (some a) (b :: c :: rest)
  | _ => none

/-- flights-service getCityCode: anchored three-letter test, then the
larger table, then extraction of an embedded word-bounded three-letter
token, then the first three characters upper-cased. -/
def getCityCode (city : String) : String :=
  if isThreeUpperAlpha (jsToUpper (jsTrim city)) then jsToUpper (jsTrim city)
  else
    match cityMap.lookup (jsTrim (jsToLower city)) with
    | some code => code
    | none =>
      match findIata none city.data with
      | some cs => jsToUpper ⟨cs⟩
      | none => jsToUpper (jsTake city 3)

end FlightsService

/-! ### Lemmas about the city-code resolvers -/

theorem lookup_mem {α β : Type} [BEq α] [LawfulBEq α] {l : List (α × β)}
    {k : α} {v : β} (h : l.lookup k = some v) : (k, v) ∈ l := by
  induction l with
  | nil => simp [List.lookup] at h
  | cons p l ih =>
    rcases p with ⟨a, b⟩
    rw [List.lookup_cons] at h
    split at h
    · next heq =>
      cases h
      have : a = k := (eq_of_beq heq).symm
      subst this
      exact List.mem_cons_self _ _
    · next => exact List.mem_cons_of_mem _ (ih h)

theorem multiAPI_cityMap_facts :
    ∀ p ∈ MultiAPI.cityMap, 3 ≤ p.1.length ∧ p.2.length = 3 := by decide

theorem flightsService_cityMap_facts :
    ∀ p ∈ FlightsService.cityMap, 3 ≤ p.1.length ∧ p.2.length = 3 := by decide

theorem isThreeUpperAlpha_length {s : String} (h : isThreeUpperAlpha s = true) :
    s.length = 3 := by
  simp only [isThreeUpperAlpha, Bool.and_eq_true, decide_eq_true_eq] at h
  exact h.1

theorem FlightsService.findIata_some :
    ∀ (l : List Char) (prev : Option Char) (cs : List Char),
      FlightsService.findIata prev l = some cs → cs.length = 3 ∧ 3 ≤ l.length := by
  intro l
  induction l with
  | nil => intro prev cs h; simp [FlightsService.findIata] at h
  | cons a l1 ih =>
    intro prev cs h
    cases l1 with
    | nil => simp [FlightsService.findIata] at h
    | cons b l2 =>
      cases l2 with
      | nil => simp [FlightsService.findIata] at h
      | cons c rest =>
        rw [FlightsService.findIata] at h
        split at h
        · cases h
          refine ⟨rfl, by simp⟩
        · have hih := ih (some a) cs h
          refine ⟨hih.1, ?_⟩
          have := hih.2
          simp only [List.length_cons] at this ⊢
          omega

theorem multiAPI_length_getCityCode (city : String) :
    (MultiAPI.getCityCode city).length = min 3 city.length := by
  unfold MultiAPI.getCityCode
  split
  · next h =>
    have h3 : (jsToUpper (jsTrim city)).length = 3 := isThreeUpperAlpha_length h
    have he : (jsToUpper (jsTrim city)).length = (jsTrim city).length :=
      length_jsToUpper _
    have hle : (jsTrim city).length ≤ city.length := length_jsTrim_le city
    omega
  · next =>
    split
    · next code heq =>
      have hmem := lookup_mem heq
      have hf := multiAPI_cityMap_facts _ hmem
      have h1 : (jsTrim (jsToLower city)).length ≤ (jsToLower city).length :=
        length_jsTrim_le _
      have h2 : (jsToLower city).length = city.length := length_jsToLower city
      have h3 : 3 ≤ (jsTrim (jsToLower city)).length := hf.1
      have h4 : code.length = 3 := hf.2
      omega
    · next =>
      have h1 : (jsToUpper (jsTake city 3)).length = (jsTake city 3).length :=
        length_jsToUpper _
      have h2 : (jsTake city 3).length = min 3 city.length := length_jsTake city 3
      omega

theorem flightsService_length_getCityCode (city : String) :
    (FlightsService.getCityCode city).length = min 3 city.length := by
  unfold FlightsService.getCityCode
  split
  · next h =>
    have h3 : (jsToUpper (jsTrim city)).length = 3 := isThreeUpperAlpha_length h
    have he : (jsToUpper (jsTrim city)).length = (jsTrim city).length :=
      length_jsToUpper _
    have hle : (jsTrim city).length ≤ city.length := length_jsTrim_le city
    omega
  · next =>
    split
    · next code heq =>
      have hmem := lookup_mem heq
      have hf := flightsService_cityMap_facts _ hmem
      have h1 : (jsTrim (jsToLower city)).length ≤ (jsToLower city).length :=
        length_jsTrim_le _
      have h2 : (jsToLower city).length = city.length := length_jsToLower city
      have h3 : 3 ≤ (jsTrim (jsToLower city)).length := hf.1
      have h4 : code.length = 3 := hf.2
      omega
    · next =>
      split
      · next cs heq =>
        have hc := FlightsService.findIata_some city.data none cs heq
        have h1 : (jsToUpper ⟨cs⟩).length = (⟨cs⟩ : String).length :=
          length_jsToUpper _
        have h2 : (⟨cs⟩ : String).length = cs.length := rfl
        have h3 : city.data.length = city.length := rfl
        have := hc.1
        have := hc.2
        omega
      · next =>
        have h1 : (jsToUpper (jsTake city 3)).length = (jsTake city 3).length :=
          length_jsToUpper _
        have h2 : (jsTake city 3).length = min 3 city.length := length_jsTake city 3
        omega

/-- Claim C9 counterexample: getCityCode does not always return a
3-character string.  On the empty string the multiAPI resolver returns the
empty string, and on a two-character unmapped input the flights-service
resolver returns a two-character string. -/
theorem getCityCode_not_always_three :
    MultiAPI.getCityCode "" = "" ∧ (MultiAPI.getCityCode "").length ≠ 3 ∧
    FlightsService.getCityCode "ab" = "AB" ∧
    (FlightsService.getCityCode "ab").length ≠ 3 := by decide

/-- Claim C9 (amended): both getCityCode implementations are deterministic
total functions (pure Lean definitions, no effects) that always return a
string of exactly min(3, input length) characters: exactly three whenever
the input has at least three characters, and the upper-cased input itself
(shorter than three) otherwise. -/
theorem getCityCode_total_length (city : String) :
    (MultiAPI.getCityCode city).length = min 3 city.length ∧
    (FlightsService.getCityCode city).length = min 3 city.length :=
  ⟨multiAPI_length_getCityCode city, flightsService_length_getCityCode city⟩

namespace MultiAPI

/-! ### Normalizer and reliability scorer (multiAPI.js) -/

/-- calculateReliability: base 0.5, plus a source weight, plus 0.1 when the
outbound segment detail is a non-empty list, plus 0.1 when the price is a
truthy number greater than zero, capped at 1.0. -/
def calculateReliability (flight : FlightInput) (source : String) : ℚ :=
  let score : ℚ := 1/2
  let score := score +
    (if source = "TRAVELLINK" then (2/5 : ℚ)
     else if source = "AMADEUS" then (3/10 : ℚ)
     else if source = "AVIATIONSTACK" then (1/5 : ℚ)
     else 0)
  let score := score +
    (if (match flight.detalhes with
         | some d => (match d.ida with
                      | some l => decide (0 < l.length)
                      | none => false)
         | none => false) then (1/10 : ℚ) else 0)
  let score := score +
    (if (match flight.preco with
         | some p => decide (0 < p)
         | none => false) then (1/10 : ℚ) else 0)
  min 1 score

/-- normalizeFlight: applies the field defaults of the source (JavaScript
or-defaults, so empty strings and zero fall back too), stamps fonte with
the source tag and computes confiabilidade.  The generated id used when
the provider supplies none is modelled as a source-derived placeholder
(the source uses the clock and the random generator). -/
def normalizeFlight (flight : FlightInput) (source : String) : Voo :=
  { id := jsOrStr flight.id (source ++ "-gen")
    preco := flight.preco.getD 0
    moeda := jsOrStr flight.moeda "BRL"
    companhia := jsOrStr flight.companhia "N/A"
    origem := flight.origem.getD ""
    destino := flight.destino.getD ""
    dataIda := flight.dataIda.getD ""
    dataVolta := jsOrNullStr flight.dataVolta
    duracaoIda := jsOrStr flight.duracaoIda "N/A"
    duracaoVolta := jsOrNullStr flight.duracaoVolta
    escalasIda := flight.escalasIda.getD 0
    escalasVolta := flight.escalasVolta
    detalhes := flight.detalhes.getD {}
    linkReserva := jsOrStr flight.linkReserva source
    fonte := some source
    confiabilidade := some (calculateReliability flight source) }

/-! ### Deduplicator (multiAPI.js deduplicateFlights) -/

/-- Dedup key: origem-destino-(first 10 characters of dataIda)-companhia,
joined exactly as the template literal does. -/
def dedupKey (f : Voo) : String :=
  f.origem ++ "-" ++ f.destino ++ "-" ++ jsTake f.dataIda 10 ++ "-" ++ f.companhia

/-- The optional-chain segment count: flight.detalhes.ida length with
or-default zero. -/
def idaLen (f : Voo) : Nat :=
  match f.detalhes.ida with
  | some l => l.length
  | none => 0

/-- JavaScript strict greater-than on the optional confiabilidade numbers:
comparisons against undefined are false. -/
def jsGtQ (a b : Option ℚ) : Bool :=
  match a, b with
  | some x, some y => decide (y < x)
  | _, _ => false

/-- Replace the value stored for a key in the seen map (Map.prototype.set
keeps the entry position). -/
def replaceAssoc (l : List (String × Voo)) (k : String) (v : Voo) :
    List (String × Voo) :=
  l.map fun p => if p.1 = k then (k, v) else p

/-- One iteration of the deduplication loop over (seen, unique). -/
def dedupStep (acc : List (String × Voo) × List Voo) (flight : Voo) :
    List (String × Voo) × List Voo :=
  let key := dedupKey flight
  match acc.1.lookup key with
  | none => (acc.1 ++ [(key, flight)], acc.2 ++ [flight])
  | some existing =>
    if jsGtQ flight.confiabilidade existing.confiabilidade ||
       decide (idaLen existing < idaLen flight) then
      let seen := replaceAssoc acc.1 key flight
      let unique :=
        match acc.2.findIdx? (fun f => f.id == existing.id) with
        | some i => acc.2.set i flight
        | none => acc.2
      (seen, unique)
    else acc

/-- deduplicateFlights: single pass over the merged list keeping, per key,
the offer selected by dedupStep. -/
def deduplicateFlights (flights : List Voo) : List Voo :=
  (flights.foldl dedupStep ([], [])).2

/-! ### Result ordering (the sort comparator of searchFlightsMultiAPI) -/

/-- The ordering realised by the comparator: higher confiabilidade first,
price ascending within equal confiabilidade.  On offers that carry a
confiabilidade value this is exactly the source comparator; a missing
value is read as zero. -/
def vooLE (a b : Voo) : Prop :=
  b.confiabilidade.getD 0 < a.confiabilidade.getD 0 ∨
    (a.confiabilidade.getD 0 = b.confiabilidade.getD 0 ∧ a.preco ≤ b.preco)

instance : DecidableRel vooLE := fun a b => by
  unfold vooLE; infer_instance

instance : IsTotal Voo vooLE :=
  ⟨by
    intro a b
    rcases lt_trichotomy (a.confiabilidade.getD 0) (b.confiabilidade.getD 0) with h | h | h
    · exact Or.inr (Or.inl h)
    · rcases le_total a.preco b.preco with hp | hp
      · exact Or.inl (Or.inr ⟨h, hp⟩)
      · exact Or.inr (Or.inr ⟨h.symm, hp⟩)
    · exact Or.inl (Or.inl h)⟩

instance : IsTrans Voo vooLE :=
  ⟨by
    intro a b c hab hbc
    rcases hab with h1 | ⟨h1, hp1⟩ <;> rcases hbc with h2 | ⟨h2, hp2⟩
    · exact Or.inl (h2.trans h1)
    · exact Or.inl (h2 ▸ h1)
    · exact Or.inl (h1 ▸ h2)
    · exact Or.inr ⟨h1.trans h2, hp1.trans hp2⟩⟩

end MultiAPI

namespace MultiAPI

/-! ### Aggregation orchestrator (searchFlightsMultiAPI)

Each provider search task settles independently; a fulfilled task appends
its offers to results and a rejected task appends one error record, and
Promise.allSettled waits for all of them.  The outcome of each task is an
explicit Except parameter; contributions are concatenated in the order the
tasks are started (travellink, amadeus, aviationstack). -/

/-- Contribution of one provider task: offers on fulfilment, one error
record on rejection, nothing when the provider is disabled. -/
def providerContrib (enabled : Bool) (source : String)
    (outcome : Except String (List Voo)) : List Voo × List ErroRec :=
  if enabled then
    match outcome with
    | .ok flights => (flights, [])
    | .error e => ([], [⟨source, e⟩])
  else ([], [])

/-- searchFlightsMultiAPI: fan out to the enabled providers, join
tolerating individual failure, deduplicate, sort by the comparator
(confiabilidade descending, preco ascending), and report statistics. -/
def searchFlightsMultiAPI (cfg : Config) (tl am av : Except String (List Voo)) :
    MultiResult :=
  let ctl := providerContrib cfg.travellinkEnabled "TRAVELLINK" tl
  let cam := providerContrib cfg.amadeusEnabled "AMADEUS" am
  let cav := providerContrib cfg.aviationstackEnabled "AVIATIONSTACK" av
  let results := ctl.1 ++ cam.1 ++ cav.1
  let errors := ctl.2 ++ cam.2 ++ cav.2
  let uniqueFlights := (deduplicateFlights results).insertionSort vooLE
  { voos := uniqueFlights
    estatisticas :=
      { total := uniqueFlights.length
        fontes :=
          { travellink :=
              (uniqueFlights.filter fun f => f.fonte == some "TRAVELLINK").length
            amadeus :=
              (uniqueFlights.filter fun f => f.fonte == some "AMADEUS").length
            aviationstack :=
              (uniqueFlights.filter fun f => f.fonte == some "AVIATIONSTACK").length }
        erros := errors } }

end MultiAPI

/-! ### Claim C4: reliability score formula and range -/

/-- Modelled from the spec (section 4.6), for the refinement comparison
only: clamp to the unit interval. -/
def specClamp (x : ℚ) : ℚ := max 0 (min 1 x)

/-- Modelled from the spec (section 4.6), for the refinement comparison
only: source weights 0.4 / 0.3 / 0.2 for the SOAP legacy, OAuth REST and
secondary providers. -/
def specSourceWeight (source : String) : ℚ :=
  if source = "TRAVELLINK" then 2/5
  else if source = "AMADEUS" then 3/10
  else if source = "AVIATIONSTACK" then 1/5
  else 0

/-- Modelled from the spec (section 4.6), for the refinement comparison
only: 0.1 when the outbound segment detail list is non-empty plus 0.1 when
the price is positive. -/
def specCompletenessBonus (flight : FlightInput) : ℚ :=
  (if (flight.detalhes.bind Detalhes.ida).getD [] ≠ [] then 1/10 else 0) +
  (if 0 < flight.preco.getD 0 then 1/10 else 0)

theorem calculateReliability_nonneg_le_one (flight : FlightInput)
    (source : String) :
    0 ≤ MultiAPI.calculateReliability flight source ∧
      MultiAPI.calculateReliability flight source ≤ 1 := by
  unfold MultiAPI.calculateReliability
  constructor
  · apply le_min
    · norm_num
    · have hw : (0:ℚ) ≤
          (if source = "TRAVELLINK" then (2/5 : ℚ)
           else if source = "AMADEUS" then (3/10 : ℚ)
           else if source = "AVIATIONSTACK" then (1/5 : ℚ)
           else 0) := by split_ifs <;> norm_num
      have hb1 : (0:ℚ) ≤
          (if (match flight.detalhes with
               | some d => (match d.ida with
                            | some l => decide (0 < l.length)
                            | none => false)
               | none => false) then (1/10 : ℚ) else 0) := by
        split_ifs <;> norm_num
      have hb2 : (0:ℚ) ≤
          (if (match flight.preco with
               | some p => decide (0 < p)
               | none => false) then (1/10 : ℚ) else 0) := by
        split_ifs <;> norm_num
      linarith
  · exact min_le_left _ _

theorem calculateReliability_eq_spec (flight : FlightInput) (source : String) :
    MultiAPI.calculateReliability flight source =
      specClamp (1/2 + specSourceWeight source + specCompletenessBonus flight) := by
  have hw : 0 ≤ specSourceWeight source := by
    unfold specSourceWeight; split_ifs <;> norm_num
  have hb : 0 ≤ specCompletenessBonus flight := by
    unfold specCompletenessBonus; split_ifs <;> norm_num
  have hx : 0 ≤ 1/2 + specSourceWeight source + specCompletenessBonus flight := by
    linarith
  unfold specClamp
  rw [max_eq_right (le_min zero_le_one hx)]
  unfold MultiAPI.calculateReliability specSourceWeight specCompletenessBonus
  congr 1
  rcases hD : flight.detalhes with _ | d
  · rcases hP : flight.preco with _ | p <;>
      · simp only [hD, hP]
        simp
        try ring1
        try (congr 1 <;> ring1)
  · rcases hI : d.ida with _ | l
    · rcases hP : flight.preco with _ | p <;>
        · simp only [hD, hI, hP]
          simp [hI]
          try ring1
          try (congr 1 <;> ring1)
    · rcases l with _ | ⟨s0, l0⟩ <;> rcases hP : flight.preco with _ | p <;>
        · simp only [hD, hI, hP]
          simp [hI]
          try ring1
          try (congr 1 <;> ring1)

/-- Claim C4: for every offer and source tag the computed reliability
equals clamp(0.5 + sourceWeight + completenessBonus, 0, 1) with weights
0.4 for TRAVELLINK, 0.3 for AMADEUS and 0.2 for AVIATIONSTACK, bonus 0.1
for a non-empty outbound segment detail list and 0.1 for a positive
price; and the result always lies in the unit interval. -/
theorem reliability_score_formula_and_range :
    (∀ (flight : FlightInput) (source : String),
        MultiAPI.calculateReliability flight source =
          specClamp (1/2 + specSourceWeight source + specCompletenessBonus flight)) ∧
    specSourceWeight "TRAVELLINK" = 2/5 ∧
    specSourceWeight "AMADEUS" = 3/10 ∧
    specSourceWeight "AVIATIONSTACK" = 1/5 ∧
    (∀ (flight : FlightInput) (source : String),
        0 ≤ MultiAPI.calculateReliability flight source ∧
          MultiAPI.calculateReliability flight source ≤ 1) :=
  ⟨calculateReliability_eq_spec, by simp [specSourceWeight],
   by simp [specSourceWeight], by simp [specSourceWeight],
   calculateReliability_nonneg_le_one⟩

/-! ### Claim C3: deduplicator replacement rule -/

/-- Two-offer characterisation of the deduplication loop: on a key
collision the stored offer is replaced exactly when the incoming offer has
strictly higher confiabilidade or a strictly longer outbound segment list
(the two conditions are independent alternatives in the source). -/
theorem dedup_pair_aux (a b : Voo) (h : MultiAPI.dedupKey a = MultiAPI.dedupKey b) :
    MultiAPI.deduplicateFlights [a, b] =
      if MultiAPI.jsGtQ b.confiabilidade a.confiabilidade ||
         decide (MultiAPI.idaLen a < MultiAPI.idaLen b) then [b] else [a] := by
  unfold MultiAPI.deduplicateFlights
  simp only [List.foldl]
  have h1 : MultiAPI.dedupStep ([], []) a = ([(MultiAPI.dedupKey a, a)], [a]) := rfl
  rw [h1]
  unfold MultiAPI.dedupStep
  rw [← h]
  simp only [List.lookup, beq_self_eq_true, MultiAPI.replaceAssoc]
  split
  · simp [List.findIdx?]
  · rfl

/-- Claim C3 (amended): on a dedup-key collision the stored offer is
replaced if and only if the incoming offer has strictly higher
confiabilidade or a strictly longer outbound segment list; the
segment-length alternative applies regardless of the reliability
comparison, not only at equal reliability. -/
theorem dedup_replacement_rule (a b : Voo)
    (h : MultiAPI.dedupKey a = MultiAPI.dedupKey b) :
    MultiAPI.deduplicateFlights [a, b] =
      if MultiAPI.jsGtQ b.confiabilidade a.confiabilidade ||
         decide (MultiAPI.idaLen a < MultiAPI.idaLen b) then [b] else [a] :=
  dedup_pair_aux a b h

/-- Stored offer in the claim C3 counterexample: full-confidence
TRAVELLINK offer with one outbound segment. -/
def cexA : Voo :=
  { id := "cex-a", preco := 100, moeda := "BRL", companhia := "LATAM"
    origem := "GRU", destino := "SDU", dataIda := "2025-12-25T08:00"
    dataVolta := none, duracaoIda := "N/A", duracaoVolta := none
    escalasIda := 0, escalasVolta := none
    detalhes := { ida := some [{}] }
    linkReserva := "TRAVELLINK", fonte := some "TRAVELLINK"
    confiabilidade := some 1 }

/-- Incoming offer in the claim C3 counterexample: lower-confidence
AVIATIONSTACK offer with two outbound segments and the same dedup key. -/
def cexB : Voo :=
  { id := "cex-b", preco := 0, moeda := "BRL", companhia := "LATAM"
    origem := "GRU", destino := "SDU", dataIda := "2025-12-25T10:00"
    dataVolta := none, duracaoIda := "N/A", duracaoVolta := none
    escalasIda := 0, escalasVolta := none
    detalhes := { ida := some [{}, {}] }
    linkReserva := "AVIATIONSTACK", fonte := some "AVIATIONSTACK"
    confiabilidade := some (4/5) }

/-- Claim C3 counterexample: cexB collides with the stored cexA, has
strictly lower confiabilidade (so the claim as stated requires keeping
cexA) but a longer outbound segment list, and the code replaces the
stored offer with cexB. -/
theorem dedup_replacement_cex :
    MultiAPI.dedupKey cexA = MultiAPI.dedupKey cexB ∧
    MultiAPI.jsGtQ cexB.confiabilidade cexA.confiabilidade = false ∧
    cexB.confiabilidade ≠ cexA.confiabilidade ∧
    MultiAPI.idaLen cexA < MultiAPI.idaLen cexB ∧
    MultiAPI.deduplicateFlights [cexA, cexB] = [cexB] := by
  have hk : MultiAPI.dedupKey cexA = MultiAPI.dedupKey cexB := by decide
  refine ⟨hk, ?_, ?_, by decide, ?_⟩
  · simp only [cexA, cexB, MultiAPI.jsGtQ]
    norm_num
  · simp only [cexA, cexB, ne_eq, Option.some.injEq]
    norm_num
  · rw [dedup_pair_aux cexA cexB hk]
    have h2 : decide (MultiAPI.idaLen cexA < MultiAPI.idaLen cexB) = true := by
      decide
    have h3 : (MultiAPI.jsGtQ cexB.confiabilidade cexA.confiabilidade ||
        decide (MultiAPI.idaLen cexA < MultiAPI.idaLen cexB)) = true := by
      rw [h2, Bool.or_true]
    rw [if_pos h3]

/-- Witness for the amended claim C3 theorem at a concrete collision. -/
theorem dedup_replacement_rule_witness :
    MultiAPI.deduplicateFlights [cexA, cexB] =
      if MultiAPI.jsGtQ cexB.confiabilidade cexA.confiabilidade ||
         decide (MultiAPI.idaLen cexA < MultiAPI.idaLen cexB) then [cexB] else [cexA] :=
  dedup_replacement_rule cexA cexB (by decide)

/-! ### Claim C5: result ordering -/

/-- Offer at price 800 and reliability 0.9 in the ordering example. -/
def ex800 : Voo :=
  { id := "ex-800", preco := 800, moeda := "BRL", companhia := "LATAM"
    origem := "GRU", destino := "SDU", dataIda := "2025-12-25T08:00"
    dataVolta := none, duracaoIda := "N/A", duracaoVolta := none
    escalasIda := 0, escalasVolta := none, detalhes := {}
    linkReserva := "TRAVELLINK", fonte := some "TRAVELLINK"
    confiabilidade := some (9/10) }

/-- Offer at price 500 and reliability 0.9 in the ordering example. -/
def ex500 : Voo :=
  { id := "ex-500", preco := 500, moeda := "BRL", companhia := "GOL"
    origem := "GRU", destino := "SDU", dataIda := "2025-12-25T09:00"
    dataVolta := none, duracaoIda := "N/A", duracaoVolta := none
    escalasIda := 0, escalasVolta := none, detalhes := {}
    linkReserva := "TRAVELLINK", fonte := some "TRAVELLINK"
    confiabilidade := some (9/10) }

/-- Offer at price 100 and reliability 0.5 in the ordering example. -/
def ex100 : Voo :=
  { id := "ex-100", preco := 100, moeda := "BRL", companhia := "AZUL"
    origem := "GRU", destino := "SDU", dataIda := "2025-12-25T10:00"
    dataVolta := none, duracaoIda := "N/A", duracaoVolta := none
    escalasIda := 0, escalasVolta := none, detalhes := {}
    linkReserva := "TRAVELLINK", fonte := some "TRAVELLINK"
    confiabilidade := some (1/2) }

/-- Claim C5: the offer list returned by searchFlightsMultiAPI is sorted
by the comparator order vooLE (confiabilidade descending, preco ascending
within equal confiabilidade); on the example with reliabilities 0.9, 0.9,
0.5 and prices 800, 500, 100 the output order is 500, 800, 100. -/
theorem search_result_sorted_and_example :
    (∀ (cfg : Config) (tl am av : Except String (List Voo)),
        List.Sorted MultiAPI.vooLE
          (MultiAPI.searchFlightsMultiAPI cfg tl am av).voos) ∧
    (MultiAPI.searchFlightsMultiAPI ⟨true, true, true⟩
        (.ok [ex800, ex500, ex100]) (.ok []) (.ok [])).voos
      = [ex500, ex800, ex100] := by
  constructor
  · intro cfg tl am av
    exact List.sorted_insertionSort MultiAPI.vooLE _
  · have hd : MultiAPI.deduplicateFlights ([ex800, ex500, ex100] ++ [] ++ []) =
        [ex800, ex500, ex100] := rfl
    show (MultiAPI.deduplicateFlights
        ([ex800, ex500, ex100] ++ [] ++ [])).insertionSort MultiAPI.vooLE = _
    rw [hd]
    have h1 : MultiAPI.vooLE ex500 ex100 := Or.inl (by norm_num [ex500, ex100])
    have h2 : ¬ MultiAPI.vooLE ex800 ex500 := by
      intro hc
      rcases hc with hlt | ⟨hEq, hle⟩
      · norm_num [ex800, ex500] at hlt
      · norm_num [ex800, ex500] at hle
    have h3 : MultiAPI.vooLE ex800 ex100 := Or.inl (by norm_num [ex800, ex100])
    simp only [List.insertionSort, List.orderedInsert, h1, h2, h3,
      if_true, if_false, ite_true, ite_false]

/-! ### Claim C1: partial-failure isolation -/

/-- Claim C1: with all three providers enabled, when exactly one provider
task rejects and the other two fulfil, searchFlightsMultiAPI returns the
deduplicated, sorted union of the two successful providers' offers and
records exactly one error naming the failed provider.  The three
conjuncts cover the three positions of the failing provider. -/
theorem multiapi_partial_failure (e : String) (l1 l2 : List Voo) :
    ((MultiAPI.searchFlightsMultiAPI ⟨true, true, true⟩
          (.error e) (.ok l1) (.ok l2)).voos
        = (MultiAPI.deduplicateFlights (l1 ++ l2)).insertionSort MultiAPI.vooLE ∧
      (MultiAPI.searchFlightsMultiAPI ⟨true, true, true⟩
          (.error e) (.ok l1) (.ok l2)).estatisticas.erros = [⟨"TRAVELLINK", e⟩]) ∧
    ((MultiAPI.searchFlightsMultiAPI ⟨true, true, true⟩
          (.ok l1) (.error e) (.ok l2)).voos
        = (MultiAPI.deduplicateFlights (l1 ++ l2)).insertionSort MultiAPI.vooLE ∧
      (MultiAPI.searchFlightsMultiAPI ⟨true, true, true⟩
          (.ok l1) (.error e) (.ok l2)).estatisticas.erros = [⟨"AMADEUS", e⟩]) ∧
    ((MultiAPI.searchFlightsMultiAPI ⟨true, true, true⟩
          (.ok l1) (.ok l2) (.error e)).voos
        = (MultiAPI.deduplicateFlights (l1 ++ l2)).insertionSort MultiAPI.vooLE ∧
      (MultiAPI.searchFlightsMultiAPI ⟨true, true, true⟩
          (.ok l1) (.ok l2) (.error e)).estatisticas.erros = [⟨"AVIATIONSTACK", e⟩]) := by
  refine ⟨⟨?_, rfl⟩, ⟨?_, ?_⟩, ⟨?_, ?_⟩⟩ <;>
    simp [MultiAPI.searchFlightsMultiAPI, MultiAPI.providerContrib]

/-! ### Claim C10: statistics consistency -/

theorem count_three_partition (l : List Voo)
    (h : ∀ f ∈ l, f.fonte = some "TRAVELLINK" ∨ f.fonte = some "AMADEUS" ∨
        f.fonte = some "AVIATIONSTACK") :
    (l.filter fun f => f.fonte == some "TRAVELLINK").length
      + (l.filter fun f => f.fonte == some "AMADEUS").length
      + (l.filter fun f => f.fonte == some "AVIATIONSTACK").length = l.length := by
  induction l with
  | nil => simp
  | cons a t ih =>
    have ha := h a (List.mem_cons_self a t)
    have ht : ∀ f ∈ t, f.fonte = some "TRAVELLINK" ∨ f.fonte = some "AMADEUS" ∨
        f.fonte = some "AVIATIONSTACK" := fun f hf => h f (List.mem_cons_of_mem a hf)
    have hrec := ih ht
    rcases ha with h1 | h1 | h1 <;>
      · simp only [List.filter_cons, h1]
        simp only [List.length_cons]
        simp
        omega

/-- Claim C10: normalizeFlight stamps fonte with exactly the given source
tag; the estatisticas record has total equal to the length of the returned
voos list; and whenever every returned offer's fonte is one of the three
provider tags (as holds for all adapter-produced offers), total equals the
sum of the three per-source counts. -/
theorem stats_consistency :
    (∀ (fi : FlightInput) (s : String),
        (MultiAPI.normalizeFlight fi s).fonte = some s) ∧
    (∀ (cfg : Config) (tl am av : Except String (List Voo)),
        (MultiAPI.searchFlightsMultiAPI cfg tl am av).estatisticas.total
          = (MultiAPI.searchFlightsMultiAPI cfg tl am av).voos.length) ∧
    (∀ (cfg : Config) (tl am av : Except String (List Voo)),
        (∀ f ∈ (MultiAPI.searchFlightsMultiAPI cfg tl am av).voos,
            f.fonte = some "TRAVELLINK" ∨ f.fonte = some "AMADEUS" ∨
              f.fonte = some "AVIATIONSTACK") →
        (MultiAPI.searchFlightsMultiAPI cfg tl am av).estatisticas.fontes.travellink
          + (MultiAPI.searchFlightsMultiAPI cfg tl am av).estatisticas.fontes.amadeus
          + (MultiAPI.searchFlightsMultiAPI cfg tl am av).estatisticas.fontes.aviationstack
          = (MultiAPI.searchFlightsMultiAPI cfg tl am av).estatisticas.total) :=
  ⟨fun _ _ => rfl, fun _ _ _ _ => rfl,
   fun cfg tl am av h => count_three_partition _ h⟩

/-- Witness for the conditional part of claim C10 at a concrete search. -/
theorem stats_consistency_witness :
    (MultiAPI.searchFlightsMultiAPI ⟨true, true, true⟩
        (.ok [ex800]) (.ok []) (.ok [])).estatisticas.fontes.travellink
      + (MultiAPI.searchFlightsMultiAPI ⟨true, true, true⟩
          (.ok [ex800]) (.ok []) (.ok [])).estatisticas.fontes.amadeus
      + (MultiAPI.searchFlightsMultiAPI ⟨true, true, true⟩
          (.ok [ex800]) (.ok []) (.ok [])).estatisticas.fontes.aviationstack
      = (MultiAPI.searchFlightsMultiAPI ⟨true, true, true⟩
          (.ok [ex800]) (.ok []) (.ok [])).estatisticas.total :=
  stats_consistency.2.2 ⟨true, true, true⟩ (.ok [ex800]) (.ok []) (.ok [])
    (by
      intro f hf
      have hv : (MultiAPI.searchFlightsMultiAPI ⟨true, true, true⟩
          (.ok [ex800]) (.ok []) (.ok [])).voos = [ex800] := rfl
      rw [hv] at hf
      simp only [List.mem_singleton] at hf
      subst hf
      left
      rfl)

namespace FlightsService

/-! ### Mock generator and search entry point (flights-service module) -/

/-- One iteration's environment effects inside generateMockFlights: the
Math.random() draws (airline pick, price base with its toFixed rounding,
stop count) and the Date-library formatting results.  The generator's own
logic (loop of 15, field wiring, MOCK link, final price sort) is modelled
exactly. -/
structure MockDraw where
  companhia : String
  preco : ℚ
  escalas : Int
  dataIdaIso : String
  dataVoltaIso : String
  chegadaIdaIso : String
  chegadaVoltaIso : String
  duracaoIda : String
  duracaoVolta : String
  duracaoSegIda : String
  duracaoSegVolta : String
  numeroVooIda : String
  numeroVooVolta : String
deriving DecidableEq

/-- One synthetic offer of generateMockFlights at loop index i: origem
and destino cut to their first three characters upper-cased, booking link
MOCK, no fonte and no confiabilidade fields. -/
def mockVoo (origem destino : String) (dataVolta : Option String)
    (draw : Nat → MockDraw) (i : Nat) : Voo :=
  let d := draw i
  { id := "mock-flight-" ++ toString i
    preco := d.preco
    moeda := "BRL"
    companhia := d.companhia
    origem := jsToUpper (jsTake origem 3)
    destino := jsToUpper (jsTake destino 3)
    dataIda := d.dataIdaIso
    dataVolta := dataVolta.map fun _ => d.dataVoltaIso
    duracaoIda := d.duracaoIda
    duracaoVolta := if dataVolta.isSome then some d.duracaoVolta else none
    escalasIda := d.escalas
    escalasVolta := if dataVolta.isSome then some d.escalas else none
    detalhes :=
      { ida := some [{ origem := some (jsToUpper (jsTake origem 3))
                       destino := some (jsToUpper (jsTake destino 3))
                       partida := some d.dataIdaIso
                       chegada := some d.chegadaIdaIso
                       duracao := some d.duracaoSegIda
                       companhia := some (jsToUpper (jsTake d.companhia 2))
                       numeroVoo := some d.numeroVooIda }]
        volta :=
          if dataVolta.isSome then
            some [{ origem := some (jsToUpper (jsTake destino 3))
                    destino := some (jsToUpper (jsTake origem 3))
                    partida := some d.dataVoltaIso
                    chegada := some d.chegadaVoltaIso
                    duracao := some d.duracaoSegVolta
                    companhia := some (jsToUpper (jsTake d.companhia 2))
                    numeroVoo := some d.numeroVooVolta }]
          else none }
    linkReserva := "MOCK"
    fonte := none
    confiabilidade := none }

/-- generateMockFlights: fifteen synthetic offers built by mockVoo,
finally sorted by price ascending. -/
def generateMockFlights (origem destino _dataIda : String)
    (dataVolta : Option String) (draw : Nat → MockDraw) : List Voo :=
  ((List.range 15).map (mockVoo origem destino dataVolta draw)).insertionSort
    fun a b => a.preco ≤ b.preco

/-- The source computes USE_MOCK_DATA as a strict equality test of the
boolean USE_MOCK_FLIGHTS against the string literal true, which is false
for every value of the flag (a boolean is never strictly equal to a
string), so this constant is false regardless of the flag. -/
def USE_MOCK_DATA (_useMockFlights : Bool) : Bool := false

/-- searchFlights of the flights-service module.  The multi-API result is
total in this model (the orchestrator settles every task and never
rejects), so the catch branch around it, which would fall back to the
direct Amadeus search, is unreachable; the direct Amadeus path is reached
only when no provider is enabled, with its outcome passed explicitly. -/
def searchFlights (useMockFlights : Bool) (cfg : Config)
    (tl am av amadeusDirect : Except String (List Voo))
    (draw : Nat → MockDraw) (origem destino dataIda : String)
    (dataVolta : Option String) : Except String (List Voo) :=
  let useMultiAPI := cfg.travellinkEnabled || cfg.amadeusEnabled ||
    cfg.aviationstackEnabled
  if USE_MOCK_DATA useMockFlights && !useMultiAPI then
    .ok (generateMockFlights origem destino dataIda dataVolta draw)
  else if useMultiAPI then
    let resultado := MultiAPI.searchFlightsMultiAPI cfg tl am av
    if resultado.voos.length = 0 then
      if useMockFlights then
        .ok (generateMockFlights origem destino dataIda dataVolta draw)
      else .ok []
    else .ok resultado.voos
  else
    match amadeusDirect with
    | .ok voos =>
      if voos.length = 0 then
        if useMockFlights then
          .ok (generateMockFlights origem destino dataIda dataVolta draw)
        else .error "Nenhum voo encontrado para os critérios informados."
      else .ok voos
    | .error e =>
      if useMockFlights then
        .ok (generateMockFlights origem destino dataIda dataVolta draw)
      else .error e

end FlightsService

/-- A fixed oracle for the mock generator's environment effects, used in
concrete instances. -/
def mockDraw0 : Nat → FlightsService.MockDraw := fun _ =>
  { companhia := "LATAM", preco := 1000, escalas := 0
    dataIdaIso := "2025-12-25T08:00:00.000Z"
    dataVoltaIso := "2025-12-30T08:00:00.000Z"
    chegadaIdaIso := "2025-12-25T11:00:00.000Z"
    chegadaVoltaIso := "2025-12-30T11:00:00.000Z"
    duracaoIda := "3h 0m", duracaoVolta := "3h 0m"
    duracaoSegIda := "3H0M", duracaoSegVolta := "3H0M"
    numeroVooIda := "LA1000", numeroVooVolta := "LA1001" }

/-! ### Claim C2: total failure without fallback -/

/-- Claim C2 counterexample: with all three providers enabled and all
three rejecting, and the mock flag disabled, searchFlights returns an ok
empty list instead of failing with a provider error. -/
theorem search_total_failure_cex :
    FlightsService.searchFlights false ⟨true, true, true⟩
        (.error "ECONNREFUSED") (.error "timeout") (.error "HTTP 500")
        (.ok []) mockDraw0 "GRU" "SDU" "2025-12-25" none = .ok [] := rfl

/-- Claim C2 (amended): when every enabled provider call fails outright
and the mock fallback is disabled, the public search succeeds with an
empty offer list; the provider errors are only recorded in the orchestrator
statistics, which searchFlights discards. -/
theorem search_total_failure_returns_empty (e1 e2 e3 : String)
    (ad : Except String (List Voo)) (draw : Nat → FlightsService.MockDraw)
    (origem destino dataIda : String) (dataVolta : Option String) :
    FlightsService.searchFlights false ⟨true, true, true⟩
        (.error e1) (.error e2) (.error e3) ad draw origem destino dataIda
        dataVolta = .ok [] ∧
    (MultiAPI.searchFlightsMultiAPI ⟨true, true, true⟩
        (.error e1) (.error e2) (.error e3)).estatisticas.erros
      = [⟨"TRAVELLINK", e1⟩, ⟨"AMADEUS", e2⟩, ⟨"AVIATIONSTACK", e3⟩] :=
  ⟨rfl, rfl⟩

theorem generateMockFlights_length (origem destino dataIda : String)
    (dataVolta : Option String) (draw : Nat → FlightsService.MockDraw) :
    (FlightsService.generateMockFlights origem destino dataIda dataVolta
      draw).length = 15 := by
  unfold FlightsService.generateMockFlights
  rw [List.length_insertionSort]
  simp

theorem generateMockFlights_mem (origem destino dataIda : String)
    (dataVolta : Option String) (draw : Nat → FlightsService.MockDraw)
    (f : Voo)
    (hf : f ∈ FlightsService.generateMockFlights origem destino dataIda
      dataVolta draw) :
    ∃ i < 15, f = FlightsService.mockVoo origem destino dataVolta draw i := by
  unfold FlightsService.generateMockFlights at hf
  rw [(List.perm_insertionSort _ _).mem_iff] at hf
  simp only [List.mem_map, List.mem_range] at hf
  obtain ⟨i, hi, hEq⟩ := hf
  exact ⟨i, hi, hEq.symm⟩

/-! ### Claim C6: mock fallback -/

/-- Claim C6 (amended): when all enabled providers return empty result
lists with no errors and the mock flag is enabled, searchFlights returns
exactly the MockGenerator output: fifteen offers, each carrying the MOCK
booking link and no fonte (sourceProvider) and no confiabilidade field at
all. -/
theorem mock_fallback_returns_mock (ad : Except String (List Voo))
    (draw : Nat → FlightsService.MockDraw)
    (origem destino dataIda : String) (dataVolta : Option String) :
    FlightsService.searchFlights true ⟨true, true, true⟩
        (.ok []) (.ok []) (.ok []) ad draw origem destino dataIda dataVolta
      = .ok (FlightsService.generateMockFlights origem destino dataIda
          dataVolta draw) ∧
    (FlightsService.generateMockFlights origem destino dataIda dataVolta
        draw).length = 15 ∧
    ((FlightsService.generateMockFlights origem destino dataIda dataVolta
        draw).all fun f =>
          f.linkReserva == "MOCK" && f.fonte == none &&
            f.confiabilidade == none) = true := by
  refine ⟨rfl, generateMockFlights_length _ _ _ _ _, ?_⟩
  rw [List.all_eq_true]
  intro f hf
  obtain ⟨i, _, rfl⟩ := generateMockFlights_mem _ _ _ _ _ _ hf
  rfl

/-- Claim C6 counterexample: in the mock-fallback scenario the returned
list is non-empty but none of its offers has fonte (sourceProvider) equal
to MOCK; the provenance field is absent on every mock offer, only the
linkReserva booking link carries MOCK. -/
theorem mock_fallback_cex :
    FlightsService.searchFlights true ⟨true, true, true⟩
        (.ok []) (.ok []) (.ok []) (.ok []) mockDraw0 "GRU" "SDU"
        "2025-12-25" none
      = .ok (FlightsService.generateMockFlights "GRU" "SDU" "2025-12-25"
          none mockDraw0) ∧
    0 < (FlightsService.generateMockFlights "GRU" "SDU" "2025-12-25" none
        mockDraw0).length ∧
    ((FlightsService.generateMockFlights "GRU" "SDU" "2025-12-25" none
        mockDraw0).all fun f => f.fonte == some "MOCK") = false := by
  refine ⟨rfl, ?_, ?_⟩
  · rw [generateMockFlights_length]
    norm_num
  · rw [List.all_eq_false]
    have hne : FlightsService.generateMockFlights "GRU" "SDU" "2025-12-25"
        none mockDraw0 ≠ [] := by
      intro hnil
      have := congrArg List.length hnil
      rw [generateMockFlights_length] at this
      simp at this
    refine ⟨(FlightsService.generateMockFlights "GRU" "SDU" "2025-12-25"
        none mockDraw0).head hne, List.head_mem hne, ?_⟩
    obtain ⟨i, _, hEq⟩ := generateMockFlights_mem _ _ _ _ _ _
      (List.head_mem hne)
    rw [hEq]
    have hfo : (FlightsService.mockVoo "GRU" "SDU" none mockDraw0 i).fonte =
        none := rfl
    simp [hfo]

namespace MultiAPI

/-! ### SOAP legacy adapter (searchTravelLink) -/

/-- JavaScript string coercion of a dynamic value, as used by template
interpolation and object-key indexing of payload fields. -/
def jsValToStr : Value → String
  | .str s => s
  | .num q => toString q
  | .bool b => if b then "true" else "false"
  | .null => "null"
  | .arr _ => ""
  | .obj _ => "[object Object]"

def digitsToNat (ds : List Char) : Nat :=
  ds.foldl (fun acc c => acc * 10 + (c.toNat - 48)) 0

/-- parseFloat on a string: optional sign, integer digits, optional
fraction; anything after is ignored; no digits at all gives NaN (none). -/
def jsParseFloat (s : String) : Option ℚ :=
  let l := s.data.dropWhile jsIsSpace
  let signAndRest : ℚ × List Char :=
    match l with
    | '-' :: rest => (-1, rest)
    | '+' :: rest => (1, rest)
    | _ => (1, l)
  let intDigits := signAndRest.2.takeWhile Char.isDigit
  let afterInt := signAndRest.2.dropWhile Char.isDigit
  let fracDigits :=
    match afterInt with
    | '.' :: r2 => r2.takeWhile Char.isDigit
    | _ => []
  if intDigits.length = 0 ∧ fracDigits.length = 0 then none
  else some (signAndRest.1 *
    ((digitsToNat intDigits : ℚ) +
      (digitsToNat fracDigits : ℚ) / ((10 : ℚ) ^ fracDigits.length)))

/-- parseFloat applied to a dynamic value (string coercion semantics on
the shapes the adapter actually receives; other shapes give NaN). -/
def valToNum (v : Value) : Option ℚ :=
  match v with
  | .num q => some q
  | .str s => jsParseFloat s
  | _ => none

/-- parseInt applied to a dynamic value: integer part of the leading
numeral, truncated toward zero. -/
def valToInt (v : Value) : Option Int :=
  match v with
  | .num q => some (if 0 ≤ q then q.floor else -((-q).floor))
  | .str s =>
    match jsParseFloat s with
    | some q => some (if 0 ≤ q then q.floor else -((-q).floor))
    | none => none
  | _ => none

/-- String value of the first truthy candidate field, else the default
(the or-chain pattern of formatarVooTravelLink). -/
def pickStr (voo : Value) (keys : List String) (dflt : String) : String :=
  match firstTruthyProp voo keys with
  | some v => jsValToStr v
  | none => dflt

/-- The carrier-code to display-name table of the adapters. -/
def companhiaMap : List (String × String) :=
  [("LA", "LATAM"), ("G3", "GOL"), ("AD", "Azul"), ("JJ", "LATAM"),
   ("TP", "TAP"), ("AF", "Air France"), ("KL", "KLM"), ("LH", "Lufthansa"),
   ("EK", "Emirates"), ("QR", "Qatar Airways"), ("AA", "American Airlines"),
   ("DL", "Delta"), ("UA", "United"), ("BA", "British Airways")]

/-- formatarVooTravelLink: extract the known field spellings with their
or-defaults, map the carrier code, assemble the departure timestamp (the
current-time fallback is the now parameter) and normalize with the
TRAVELLINK source tag. -/
def formatarVooTravelLink (voo : Value) (origemCode destinoCode now : String)
    (index : Nat) : Voo :=
  let companhia := pickStr voo ["Companhia", "companhia", "Airline", "airline"] "N/A"
  let preco : ℚ :=
    match firstTruthyProp voo ["Preco", "preco", "Price", "price", "Valor", "valor"] with
    | some v => (valToNum v).getD 0
    | none => 0
  let moeda := pickStr voo ["Moeda", "moeda", "Currency", "currency"] "BRL"
  let dataPartida := pickStr voo
    ["DataPartida", "dataPartida", "DepartureDate", "departureDate"] ""
  let horaPartida := pickStr voo
    ["HoraPartida", "horaPartida", "DepartureTime", "departureTime"] ""
  let horaChegada := pickStr voo
    ["HoraChegada", "horaChegada", "ArrivalTime", "arrivalTime"] ""
  let duracao := pickStr voo ["Duracao", "duracao", "Duration", "duration"] "N/A"
  let escalas : Int :=
    match firstTruthyProp voo ["Escalas", "escalas", "Stops", "stops"] with
    | some v => (valToInt v).getD 0
    | none => 0
  let numeroVoo := pickStr voo
    ["NumeroVoo", "numeroVoo", "FlightNumber", "flightNumber"] ""
  let companhiaNome :=
    match companhiaMap.lookup companhia with
    | some nome => nome
    | none => companhia
  let origem := pickStr voo ["Origem", "origem"] origemCode
  let destino := pickStr voo ["Destino", "destino"] destinoCode
  normalizeFlight
    { id := some (pickStr voo ["Id", "id"]
        ("travellink-" ++ toString index ++ "-gen"))
      preco := some preco
      moeda := some moeda
      companhia := some companhiaNome
      origem := some origem
      destino := some destino
      dataIda := some (if dataPartida ≠ "" then
          dataPartida ++ "T" ++ horaPartida ++ ":00" else now)
      dataVolta := none
      duracaoIda := some duracao
      duracaoVolta := none
      escalasIda := some escalas
      escalasVolta := none
      detalhes := some
        { ida := some [{ origem := some origem
                         destino := some destino
                         partida := some (if dataPartida ≠ "" then
                             dataPartida ++ "T" ++ horaPartida ++ ":00" else "")
                         chegada := some (if horaChegada ≠ "" then
                             dataPartida ++ "T" ++ horaChegada ++ ":00" else "")
                         duracao := some duracao
                         companhia := some companhiaNome
                         numeroVoo := some numeroVoo }]
          volta := none }
      linkReserva := some "TRAVELLINK" }
    "TRAVELLINK"

/-- Whether a payload entry counts as a processable offer record
(truthy and of object type: objects and arrays pass, null and scalars do
not). -/
def isObjLike : Value → Bool
  | .obj _ => true
  | .arr _ => true
  | _ => false

/-- processarResultadosTravelLink: unwrap the known wrapper keys in
priority order, then process an array of records, an inner offer list, or
the whole object as a single offer when it has at least one own field.
All failures inside are caught by the function's own handler, so a null
receiver produces the empty list. -/
def processarResultadosTravelLink (resultado : Value)
    (origemCode destinoCode now : String) : List Voo :=
  match resultado with
  | .null => []
  | _ =>
    let dados :=
      if truthyProp resultado "DisponibilidadeResult" then
        (getProp resultado "DisponibilidadeResult").getD .null
      else if truthyProp resultado "disponibilidadeResult" then
        (getProp resultado "disponibilidadeResult").getD .null
      else if truthyProp resultado "return" then
        (getProp resultado "return").getD .null
      else if truthyProp resultado "data" then
        (getProp resultado "data").getD .null
      else if truthyProp resultado "Voos" then
        (getProp resultado "Voos").getD .null
      else if truthyProp resultado "voos" then
        (getProp resultado "voos").getD .null
      else if truthyProp resultado "Flights" then
        (getProp resultado "Flights").getD .null
      else if truthyProp resultado "flights" then
        (getProp resultado "flights").getD .null
      else resultado
    if !jsTruthy dados then []
    else
      match dados with
      | .arr items =>
        if items.length = 0 then []
        else
          items.enum.filterMap fun p =>
            if isObjLike p.2 then
              some (formatarVooTravelLink p.2 origemCode destinoCode now p.1)
            else none
      | .obj fields =>
        match firstTruthyProp (.obj fields)
            ["Voos", "voos", "flights", "resultado", "ListaVoos", "listaVoos"] with
        | some (.arr listaVoos) =>
          if 0 < listaVoos.length then
            listaVoos.enum.filterMap fun p =>
              if isObjLike p.2 then
                some (formatarVooTravelLink p.2 origemCode destinoCode now p.1)
              else none
          else if 0 < fields.length then
            [formatarVooTravelLink (.obj fields) origemCode destinoCode now 0]
          else []
        | some _ =>
          if 0 < fields.length then
            [formatarVooTravelLink (.obj fields) origemCode destinoCode now 0]
          else []
        | none =>
          if 0 < fields.length then
            [formatarVooTravelLink (.obj fields) origemCode destinoCode now 0]
          else []
      | _ => []

/-- searchTravelLink: the whole body runs inside one handler that converts
any client-construction failure, remote fault or processing error into an
empty list.  A fulfilled call with a null result or an empty array result
is also the empty list; everything else goes to the result processor. -/
def searchTravelLink (enabled : Bool) (origem destino now : String)
    (outcome : Except String Value) : List Voo :=
  if !enabled then []
  else
    match outcome with
    | .error _ => []
    | .ok resultado =>
      match resultado with
      | .null => []
      | .arr [] => []
      | r => processarResultadosTravelLink r (getCityCode origem)
          (getCityCode destino) now

end MultiAPI

/-! ### Claim C7: SOAP adapter never throws past its boundary -/

theorem firstTruthyProp_eq_none (v : Value) (keys : List String)
    (h : ∀ k ∈ keys, truthyProp v k = false) :
    firstTruthyProp v keys = none := by
  induction keys with
  | nil => rfl
  | cons k ks ih =>
    have hk := h k (List.mem_cons_self k ks)
    have hks : ∀ x ∈ ks, truthyProp v x = false :=
      fun x hx => h x (List.mem_cons_of_mem k hx)
    unfold firstTruthyProp
    unfold truthyProp at hk
    cases hg : getProp v k with
    | none => simp only [hg]; exact ih hks
    | some x =>
      rw [hg] at hk
      dsimp only at hk
      simp only [hg]
      rw [if_neg]
      · exact ih hks
      · simp [hk]

/-- Claim C7: the SOAP adapter is a total function (it never propagates an
exception): a rejected or faulted call yields the empty list, a null and
an empty-array response yield the empty list, and an unrecognized object
payload (no truthy wrapper key and no inner offer-list key) is treated as
a single offer exactly when it has at least one own field, else yields the
empty list. -/
theorem soap_adapter_isolation :
    (∀ (origem destino now e : String),
        MultiAPI.searchTravelLink true origem destino now (.error e) = []) ∧
    (∀ (origem destino now : String),
        MultiAPI.searchTravelLink true origem destino now (.ok .null) = []) ∧
    (∀ (origem destino now : String),
        MultiAPI.searchTravelLink true origem destino now (.ok (.arr [])) = []) ∧
    (∀ (origem destino now : String) (fields : List (String × Value)),
        (∀ k ∈ ["DisponibilidadeResult", "disponibilidadeResult", "return",
            "data", "Voos", "voos", "Flights", "flights", "resultado",
            "ListaVoos", "listaVoos"],
          truthyProp (Value.obj fields) k = false) →
        MultiAPI.searchTravelLink true origem destino now (.ok (.obj fields))
          = if fields.length = 0 then []
            else [MultiAPI.formatarVooTravelLink (.obj fields)
                (MultiAPI.getCityCode origem) (MultiAPI.getCityCode destino)
                now 0]) := by
  refine ⟨fun _ _ _ _ => rfl, fun _ _ _ => rfl, fun _ _ _ => rfl, ?_⟩
  intro origem destino now fields h
  have hw : ∀ k ∈ (["DisponibilidadeResult", "disponibilidadeResult", "return",
      "data", "Voos", "voos", "Flights", "flights"] : List String),
      truthyProp (Value.obj fields) k = false := by
    intro k hk
    apply h
    simp only [List.mem_cons, List.not_mem_nil, or_false] at hk ⊢
    tauto
  have hinner : firstTruthyProp (Value.obj fields)
      ["Voos", "voos", "flights", "resultado", "ListaVoos", "listaVoos"] = none := by
    apply firstTruthyProp_eq_none
    intro k hk
    apply h
    simp only [List.mem_cons, List.not_mem_nil, or_false] at hk ⊢
    tauto
  show MultiAPI.processarResultadosTravelLink (.obj fields)
      (MultiAPI.getCityCode origem) (MultiAPI.getCityCode destino) now = _
  unfold MultiAPI.processarResultadosTravelLink
  have h1 := hw "DisponibilidadeResult" (by simp)
  have h2 := hw "disponibilidadeResult" (by simp)
  have h3 := hw "return" (by simp)
  have h4 := hw "data" (by simp)
  have h5 := hw "Voos" (by simp)
  have h6 := hw "voos" (by simp)
  have h7 := hw "Flights" (by simp)
  have h8 := hw "flights" (by simp)
  simp only [h1, h2, h3, h4, h5, h6, h7, h8, Bool.false_eq_true, if_false,
    jsTruthy, Bool.not_true, hinner]
  rcases fields with _ | ⟨p, rest⟩
  · simp
  · simp

namespace MultiAPI

/-! ### Batch price confirmation (confirmMultipleFlightPrices)

The per-offer pricing call is the authoritative provider's network
operation; it is passed as an oracle (a function to an Except outcome)
with an opaque confirmation payload type.  Each wrapped task settles with
success or failure, allSettled collects them in order, and only the
successes are kept, annotated onto the original offer object. -/

/-- The annotated record pushed for one successful confirmation: the
spread of the original raw offer plus the confirmation payload and the
original price. -/
structure Annotated (α : Type) where
  base : Value
  precoConfirmado : α
  precoOriginal : Option Value

/-- The offer's price total under optional chaining. -/
def jsPriceTotal (offer : Value) : Option Value :=
  match getProp offer "price" with
  | some p => getProp p "total"
  | none => none

/-- confirmMultipleFlightPrices: empty (or non-array) input short-circuits;
otherwise at most the first five offers are confirmed, the settled results
are scanned in order, and each success is pushed annotated with the
original offer at the same index. -/
def confirmMultipleFlightPrices {α : Type} (confirm : Value → Except String α)
    (flightOffers : List Value) : List (Annotated α) :=
  if flightOffers.length = 0 then []
  else
    (((flightOffers.take 5).map confirm).zip flightOffers).filterMap fun p =>
      match p.1 with
      | .ok c => some ⟨p.2, c, jsPriceTotal p.2⟩
      | .error _ => none

end MultiAPI

/-! ### Claim C8: batch price confirmation -/

theorem zip_map_take {α : Type} (confirm : Value → Except String α) :
    ∀ (n : Nat) (l : List Value),
      ((l.take n).map confirm).zip l = (l.take n).map fun o => (confirm o, o) := by
  intro n l
  induction l generalizing n with
  | nil => simp
  | cons a t ih =>
    cases n with
    | zero => simp
    | succ m =>
      simp only [List.take_succ_cons, List.map_cons, List.zip_cons_cons]
      rw [ih m]

theorem confirmMultiple_eq {α : Type} (confirm : Value → Except String α)
    (offers : List Value) :
    MultiAPI.confirmMultipleFlightPrices confirm offers
      = (offers.take 5).filterMap fun o =>
          match confirm o with
          | .ok c => some ⟨o, c, MultiAPI.jsPriceTotal o⟩
          | .error _ => none := by
  unfold MultiAPI.confirmMultipleFlightPrices
  split
  · next h =>
    have : offers = [] := List.length_eq_zero.mp h
    subst this
    rfl
  · rw [zip_map_take, List.filterMap_map]
    rfl

/-- Claim C8: confirmMultipleFlightPrices confirms at most the first five
offers, is insensitive to the offers beyond the fifth and to the pricing
oracle's behaviour outside them (they never generate a pricing request),
never fails as a whole for per-offer failures (it is a total function into
a plain list), and returns exactly the successful subset of the attempted
offers in order, each annotated with the confirmation payload and the
original price. -/
theorem confirm_batch_bounded :
    (∀ (α : Type) (confirm : Value → Except String α) (offers : List Value),
        (MultiAPI.confirmMultipleFlightPrices confirm offers).length ≤ 5) ∧
    (∀ (α : Type) (confirm : Value → Except String α) (offers : List Value),
        MultiAPI.confirmMultipleFlightPrices confirm offers
          = (offers.take 5).filterMap fun o =>
              match confirm o with
              | .ok c => some ⟨o, c, MultiAPI.jsPriceTotal o⟩
              | .error _ => none) ∧
    (∀ (α : Type) (c1 c2 : Value → Except String α)
        (offers1 offers2 : List Value),
        offers1.take 5 = offers2.take 5 →
        (∀ o ∈ offers1.take 5, c1 o = c2 o) →
        MultiAPI.confirmMultipleFlightPrices c1 offers1
          = MultiAPI.confirmMultipleFlightPrices c2 offers2) := by
  refine ⟨?_, fun α c offers => confirmMultiple_eq c offers, ?_⟩
  · intro α confirm offers
    rw [confirmMultiple_eq]
    calc ((offers.take 5).filterMap _).length
        ≤ (offers.take 5).length := List.length_filterMap_le _ _
      _ ≤ 5 := List.length_take_le 5 offers
  · intro α c1 c2 offers1 offers2 hTake hAgree
    rw [confirmMultiple_eq, confirmMultiple_eq, hTake]
    apply List.filterMap_congr
    intro x hx
    rw [hAgree x (hTake ▸ hx)]

/-- First batch in the claim C8 witness: seven raw offers. -/
def c8offers7 : List Value :=
  [.str "o1", .str "o2", .str "o3", .str "o4", .str "o5", .str "o6", .str "o7"]

/-- Second batch in the claim C8 witness: only the shared first five
offers. -/
def c8offers5 : List Value :=
  [.str "o1", .str "o2", .str "o3", .str "o4", .str "o5"]

/-- A concrete pricing oracle for the claim C8 witness. -/
def c8confirm : Value → Except String Nat := fun _ => .ok 0

/-- Witness for claim C8 at concrete inputs: the batch of seven and the
batch of its first five offers confirm identically. -/
theorem confirm_batch_bounded_witness :
    MultiAPI.confirmMultipleFlightPrices c8confirm c8offers7
      = MultiAPI.confirmMultipleFlightPrices c8confirm c8offers5 :=
  confirm_batch_bounded.2.2 Nat c8confirm c8confirm c8offers7 c8offers5
    rfl (fun _ _ => rfl)

/-- Witness for the unrecognized-payload case of claim C7 at a concrete
payload with one own field. -/
theorem soap_adapter_isolation_witness :
    MultiAPI.searchTravelLink true "GRU" "SDU" "2025-12-25T00:00:00.000Z"
        (.ok (.obj [("foo", .str "bar")]))
      = if ([("foo", Value.str "bar")] : List (String × Value)).length = 0
        then []
        else [MultiAPI.formatarVooTravelLink (.obj [("foo", Value.str "bar")])
            (MultiAPI.getCityCode "GRU") (MultiAPI.getCityCode "SDU")
            "2025-12-25T00:00:00.000Z" 0] :=
  soap_adapter_isolation.2.2.2 "GRU" "SDU" "2025-12-25T00:00:00.000Z"
    [("foo", .str "bar")] (by decide)
